import Mathlib

/-!
Verification development for the food-delivery graph-database demo.

The source is a single script that renders a hardcoded graph model
(node types, edge types), a fixed list of example queries with
precomputed result tables, a CSV export of a selected result table,
and a force-directed visualization of the model.  The definitions
below embed that data and those operations; the theorems settle the
testable properties of the design document against them.
-/

namespace FoodDeliveryDemo

/-- A node type of the registry: name (field `type` in the source dictionaries),
ordered property names, display color and display icon. -/
structure NodeType where
  type : String
  properties : List String
  color : String
  icon : String
deriving DecidableEq, Repr

/-- An edge type of the registry: source node-type name (field `from`),
target node-type name (field `to`), relationship label and property names. -/
structure EdgeType where
  «from» : String
  «to» : String
  relationship : String
  properties : List String
deriving DecidableEq, Repr

/-- The registry: the `graph_model` dictionary of the source. -/
structure GraphModel where
  nodes : List NodeType
  edges : List EdgeType
deriving DecidableEq, Repr

/-- The hardcoded `graph_model` literal. -/
def graph_model : GraphModel :=
  { nodes :=
      [ { type := "Customer"
        , properties := ["customer_id", "name", "phone", "address", "join_date"]
        , color := "#60a5fa", icon := "👤" }
      , { type := "Restaurant"
        , properties := ["restaurant_id", "name", "cuisine_type", "rating", "location"]
        , color := "#f472b6", icon := "🏪" }
      , { type := "Dish"
        , properties := ["dish_id", "name", "price", "category", "is_vegetarian"]
        , color := "#fbbf24", icon := "🍽️" }
      , { type := "DeliveryPerson"
        , properties := ["person_id", "name", "phone", "vehicle_type", "rating"]
        , color := "#34d399", icon := "🏍️" }
      , { type := "Order"
        , properties := ["order_id", "order_date", "total_amount", "status", "delivery_time"]
        , color := "#a78bfa", icon := "📦" } ]
  , edges :=
      [ { «from» := "Customer", «to» := "Order", relationship := "PLACES"
        , properties := ["timestamp"] }
      , { «from» := "Order", «to» := "Restaurant", relationship := "FROM"
        , properties := ["order_date"] }
      , { «from» := "Order", «to» := "Dish", relationship := "CONTAINS"
        , properties := ["quantity", "price"] }
      , { «from» := "DeliveryPerson", «to» := "Order", relationship := "DELIVERS"
        , properties := ["pickup_time", "delivery_time"] }
      , { «from» := "Restaurant", «to» := "Dish", relationship := "SERVES"
        , properties := ["availability"] }
      , { «from» := "Customer", «to» := "Restaurant", relationship := "REVIEWS"
        , properties := ["rating", "comment", "date"] } ] }

/-- The list of node-type names, in registry order. -/
def nodeNames : List String := graph_model.nodes.map NodeType.type

/-- A cell of a result table.  The source builds each result as a pandas
DataFrame from column lists of strings, Python ints and decimal float
literals; a float literal is kept as its decimal digits `m` with `e`
digits after the point (so `f 47 1` is the literal `4.7`). -/
inductive Cell where
  | s (v : String)
  | i (v : Int)
  | f (m : Int) (e : Nat)
deriving DecidableEq, Repr

/-- A result table: column names in order, and rows of cells.  This is the
shape pandas gives a DataFrame built from a dict of equal-length column
lists (columns in insertion order). -/
structure DataFrame where
  columns : List String
  rows : List (List Cell)
deriving DecidableEq, Repr

/-- One entry of the `queries` list of the source. -/
structure QueryExample where
  title : String
  description : String
  query : String
  result : DataFrame
deriving DecidableEq, Repr

/-- The hardcoded `queries` literal (query text kept verbatim; braces and
single quotes of the Cypher-like text are written with escape codes). -/
def queries : List QueryExample :=
  [ { title := "Find all orders by a customer"
    , description := "Retrieve all orders placed by customer \"Alice\""
    , query := "MATCH (c:Customer \x7bname: \x27Alice\x27\x7d)-[:PLACES]->(o:Order)\nRETURN c.name, o.order_id, o.total_amount, o.status"
    , result :=
      { columns := ["customer", "order_id", "amount", "status"]
      , rows :=
          [ [.s "Alice", .s "ORD001", .i 450, .s "delivered"]
          , [.s "Alice", .s "ORD005", .i 320, .s "in_transit"] ] } }
  , { title := "Find dishes from a restaurant"
    , description := "Get all dishes served by \"Spice Garden\""
    , query := "MATCH (r:Restaurant \x7bname: \x27Spice Garden\x27\x7d)-[:SERVES]->(d:Dish)\nRETURN r.name, d.name, d.price, d.category"
    , result :=
      { columns := ["restaurant", "dish", "price", "category"]
      , rows :=
          [ [.s "Spice Garden", .s "Butter Chicken", .i 280, .s "Main Course"]
          , [.s "Spice Garden", .s "Paneer Tikka", .i 220, .s "Appetizer"] ] } }
  , { title := "Track order delivery chain"
    , description := "Complete delivery chain for an order"
    , query := "MATCH (c:Customer)-[:PLACES]->(o:Order)-[:FROM]->(r:Restaurant),\n      (o)-[:CONTAINS]->(d:Dish),\n      (dp:DeliveryPerson)-[:DELIVERS]->(o)\nWHERE o.order_id = \x27ORD001\x27\nRETURN c.name, r.name, d.name, dp.name, o.status"
    , result :=
      { columns := ["customer", "restaurant", "dish", "delivery_person", "status"]
      , rows :=
          [ [.s "Alice", .s "Spice Garden", .s "Butter Chicken", .s "Raj", .s "delivered"] ] } }
  , { title := "Find highly rated restaurants"
    , description := "Restaurants with average rating > 4.5"
    , query := "MATCH (c:Customer)-[r:REVIEWS]->(rest:Restaurant)\nWHERE r.rating >= 4.5\nRETURN rest.name, rest.cuisine_type, AVG(r.rating) as avg_rating\nORDER BY avg_rating DESC"
    , result :=
      { columns := ["restaurant", "cuisine", "avg_rating"]
      , rows :=
          [ [.s "Spice Garden", .s "Indian", .f 47 1]
          , [.s "Pizza Paradise", .s "Italian", .f 46 1] ] } }
  , { title := "Delivery person performance"
    , description := "Find all orders delivered by a specific person"
    , query := "MATCH (dp:DeliveryPerson \x7bname: \x27Raj\x27\x7d)-[del:DELIVERS]->(o:Order)\nRETURN dp.name, COUNT(o) as total_deliveries, \n       AVG(del.delivery_time) as avg_delivery_time"
    , result :=
      { columns := ["delivery_person", "total_deliveries", "avg_delivery_time"]
      , rows :=
          [ [.s "Raj", .i 15, .s "28 mins"] ] } }
  , { title := "Customer preferences"
    , description := "Find most ordered dish categories by customer"
    , query := "MATCH (c:Customer \x7bname: \x27Alice\x27\x7d)-[:PLACES]->(o:Order)-[:CONTAINS]->(d:Dish)\nRETURN d.category, COUNT(d) as order_count\nORDER BY order_count DESC"
    , result :=
      { columns := ["category", "count"]
      , rows :=
          [ [.s "Main Course", .i 8]
          , [.s "Dessert", .i 5]
          , [.s "Appetizer", .i 3] ] } } ]

/-- Serialize one cell the way pandas writes it into a CSV cell: strings
verbatim, ints in decimal, floats with their decimal digits and point. -/
def Cell.str : Cell → String
  | .s v => v
  | .i v => toString v
  | .f m e =>
    let sign := if m < 0 then "-" else ""
    let digits := (toString m.natAbs).data
    if e = 0 then sign ++ String.mk digits ++ ".0"
    else
      let digits :=
        if digits.length ≤ e then List.replicate (e + 1 - digits.length) '0' ++ digits
        else digits
      sign ++ String.mk (digits.take (digits.length - e)) ++ "."
        ++ String.mk (digits.drop (digits.length - e))

/-- Quote-double the embedded quote characters of a field. -/
def escQuotes : List Char → List Char
  | [] => []
  | c :: cs => if c = '"' then '"' :: '"' :: escQuotes cs else c :: escQuotes cs

/-- Minimal CSV quoting as the pandas writer applies it: a field is quoted
only when it holds a delimiter, a quote character or a line break, and an
embedded quote is doubled. -/
def csvEscape (s : String) : String :=
  if s.data.contains ',' || s.data.contains '"' || s.data.contains '\n' || s.data.contains '\r' then
    "\"" ++ String.mk (escQuotes s.data) ++ "\""
  else s

/-- Join a list of strings with a separator. -/
def joinWith (sep : String) : List String → String
  | [] => ""
  | [x] => x
  | x :: xs => x ++ sep ++ joinWith sep xs

/-- `DataFrame.to_csv` with `index=False`: a header line of the column
names, then one line per row, comma-separated with minimal quoting, and a
terminating newline. -/
def DataFrame.to_csv (df : DataFrame) : String :=
  joinWith "\n"
    ((joinWith "," (df.columns.map csvEscape)) ::
      df.rows.map (fun r => joinWith "," (r.map (fun c => csvEscape c.str)))) ++ "\n"

/-- State of the CSV reader: outside quotes, inside a quoted field, or just
after a quote character inside a quoted field. -/
inductive CsvState where
  | normal
  | quoted
  | quoteInQuoted
deriving DecidableEq, Repr

/-- One-character-at-a-time CSV reader (comma delimiter, double-quote
quoting with quote doubling, newline record separator).  Accumulates the
characters of the current field, the fields of the current record, and
the finished records; a trailing newline produces no empty extra
record. -/
def parseCsvAux : List Char → CsvState → List Char → List String → List (List String) → List (List String)
  | [], st, field, fields, rows =>
    if st = .normal ∧ field = [] ∧ fields = [] then rows
    else rows ++ [fields ++ [String.mk field]]
  | c :: cs, .normal, field, fields, rows =>
    if c = '"' then parseCsvAux cs .quoted field fields rows
    else if c = ',' then parseCsvAux cs .normal [] (fields ++ [String.mk field]) rows
    else if c = '\n' then parseCsvAux cs .normal [] [] (rows ++ [fields ++ [String.mk field]])
    else parseCsvAux cs .normal (field ++ [c]) fields rows
  | c :: cs, .quoted, field, fields, rows =>
    if c = '"' then parseCsvAux cs .quoteInQuoted field fields rows
    else parseCsvAux cs .quoted (field ++ [c]) fields rows
  | c :: cs, .quoteInQuoted, field, fields, rows =>
    if c = '"' then parseCsvAux cs .quoted (field ++ ['"']) fields rows
    else if c = ',' then parseCsvAux cs .normal [] (fields ++ [String.mk field]) rows
    else if c = '\n' then parseCsvAux cs .normal [] [] (rows ++ [fields ++ [String.mk field]])
    else parseCsvAux cs .normal (field ++ [c]) fields rows

/-- Parse a CSV text back into its records. -/
def parseCsv (s : String) : List (List String) :=
  parseCsvAux s.data .normal [] [] []

/-- The table a result DataFrame denotes after stringification of each
cell: the column names followed by the rows of cell strings. -/
def stringTable (df : DataFrame) : List (List String) :=
  df.columns :: df.rows.map (fun r => r.map Cell.str)

/-- The export round-trip check for one result table. -/
def csvRoundTrip (df : DataFrame) : Bool :=
  parseCsv df.to_csv == stringTable df

/-- Option string shown by the Queries-page select box for the query at
0-based position `i`: Python `f-string` `"<i+1>. <title>"`. -/
def queryOption (i : Nat) (q : QueryExample) : String :=
  toString (i + 1) ++ ". " ++ q.title

/-- The full option list of the select box, built directly from `queries`. -/
def queryOptions : List String :=
  queries.enum.map fun p => queryOption p.1 p.2

/-- The text Python `split('.')[0]` yields: everything before the first
dot, or the whole string when no dot occurs. -/
def beforeFirstDot (s : String) : String :=
  String.mk (s.data.takeWhile (fun c => !(c == '.')))

/-- Decimal digit run to a number; `none` on an empty run or a non-digit. -/
def parseDigits : List Char → Option Nat
  | [] => none
  | cs =>
    cs.foldl
      (fun acc c =>
        match acc with
        | none => none
        | some n => if c.isDigit then some (n * 10 + (c.toNat - 48)) else none)
      (some 0)

/-- Python `int` conversion of a plain numeral: an optional sign followed
by decimal digits; `none` models the ValueError of a failed conversion.
(Python also strips surrounding whitespace; the option prefixes parsed
below carry none.) -/
def pyInt? (s : String) : Option Int :=
  match s.data with
  | '-' :: cs => (parseDigits cs).map (fun n => -(n : Int))
  | '+' :: cs => (parseDigits cs).map (fun n => (n : Int))
  | cs => (parseDigits cs).map (fun n => (n : Int))

/-- The index the Queries page recovers from the selected option:
`int(query_option.split('.')[0]) - 1`. -/
def parsedQueryIdx (query_option : String) : Option Int :=
  (pyInt? (beforeFirstDot query_option)).map (fun n => n - 1)

/-- Python list indexing `l[i]`: a negative index wraps once from the end;
an index still out of range raises IndexError, modelled as `none`. -/
def pyIndex {α : Type} (l : List α) (i : Int) : Option α :=
  let j := if i < 0 then (l.length : Int) + i else i
  if 0 ≤ j then l.get? j.toNat else none

/-- The payload of the download button: the CSV text and the suggested
file name. -/
structure Download where
  data : String
  file_name : String
deriving DecidableEq, Repr

/-- The Queries-page download action for a selected option string: recover
`query_idx`, pick `queries[query_idx]`, serialize its result table with
`to_csv(index=False)`, and suggest the file name
`query_<query_idx+1>_result.csv`. -/
def queriesPageDownload (query_option : String) : Option Download :=
  match parsedQueryIdx query_option with
  | none => none
  | some query_idx =>
    match pyIndex queries query_idx with
    | none => none
    | some q =>
      some { data := q.result.to_csv
           , file_name := "query_" ++ toString (query_idx + 1) ++ "_result.csv" }

/-- The node-type count the Overview page reports: the source passes the
string literal "5" to the metric widget. -/
def overviewNodeTypesMetric : String := "5"

/-- The edge-type count the Overview page reports: the source passes the
string literal "6" to the metric widget. -/
def overviewEdgeTypesMetric : String := "6"

/-- Append a vertex if it is new: `networkx` keeps existing vertices and
appends unseen ones in encounter order. -/
def addNode (ns : List String) (n : String) : List String :=
  if n ∈ ns then ns else ns ++ [n]

/-- Append a directed arc if it is new (a repeated `add_edge` on the same
pair leaves a single arc). -/
def addArc (es : List (String × String)) (e : String × String) : List (String × String) :=
  if e ∈ es then es else es ++ [e]

/-- The directed graph the Visualization page builds: each node type is
added as a vertex, then each edge is added with `G.add_edge`, which also
silently adds any endpoint that is not yet a vertex. -/
def buildGraph (m : GraphModel) : List String × List (String × String) :=
  let ns := m.nodes.foldl (fun acc n => addNode acc n.type) []
  let ns := m.edges.foldl (fun acc e => addNode (addNode acc e.«from») e.«to») ns
  let es := m.edges.foldl (fun acc e => addArc acc (e.«from», e.«to»)) []
  (ns, es)

/-- Insertion-ordered dictionary update, as a Python dict behaves: an
existing key keeps its place and gets the new value, a new key is
appended. -/
def dictInsert {α β : Type} [DecidableEq α] (d : List (α × β)) (k : α) (v : β) : List (α × β) :=
  if d.any (fun p => decide (p.1 = k)) then d.map (fun p => if p.1 = k then (k, v) else p)
  else d ++ [(k, v)]

/-- Dictionary lookup. -/
def dictFind {α β : Type} [DecidableEq α] (d : List (α × β)) (k : α) : Option β :=
  (d.find? fun p => decide (p.1 = k)).map fun p => p.2

/-- The `node_colors` dict of the Visualization page, filled from the
node list. -/
def node_colors (m : GraphModel) : List (String × String) :=
  m.nodes.foldl (fun acc n => dictInsert acc n.type n.color) []

/-- The `edge_labels` dict of the Visualization page, keyed on the
(source, target) pair and filled from the edge list. -/
def edge_labels (m : GraphModel) : List ((String × String) × String) :=
  m.edges.foldl (fun acc e => dictInsert acc (e.«from», e.«to») e.relationship) []

/-- The multiplier-increment pseudo-random step that seeds the initial
placement of the layout. -/
def lcgNext (r : Nat) : Nat := (r * 1103515245 + 12345) % 2147483648

/-- Modelled from the spec: seeded pseudo-random initial placement of the
vertices (the design notes ask for "seeded pseudo-random initial
placement").  Coordinates are fixed-point integers at scale 1000, drawn
from [-1000, 1000]. -/
def initialPositions : List String → Nat → List (String × Int × Int)
  | [], _ => []
  | v :: vs, r =>
    let r1 := lcgNext r
    let r2 := lcgNext r1
    (v, ((r1 % 2001 : Nat) : Int) - 1000, ((r2 % 2001 : Nat) : Int) - 1000)
      :: initialPositions vs r2

/-- Position of a vertex in the working list. -/
def lookupPos (ps : List (String × Int × Int)) (v : String) : Option (Int × Int) :=
  (ps.find? fun p => p.1 == v).map fun p => p.2

/-- Modelled from the spec: the repulsive force the vertex at `q` exerts on
the vertex at `p` ("vertices repel each other").  `k2` is the squared
optimal distance in fixed-point units; the magnitude decays with the
squared distance, and exactly coincident vertices get a fixed push so
they separate. -/
def repulse (k2 : Int) (p q : Int × Int) : Int × Int :=
  let dx := p.1 - q.1
  let dy := p.2 - q.2
  if dx = 0 ∧ dy = 0 then (k2 / 1000, k2 / 1000)
  else
    let d2 := dx * dx + dy * dy
    (k2 * dx / d2, k2 * dy / d2)

/-- Modelled from the spec: the attractive pull of an edge on the vertex at
`p` toward its neighbour at `q` ("connected vertices attract along
edges"): a fixed fraction of the separation. -/
def attract (p q : Int × Int) : Int × Int :=
  ((q.1 - p.1) * 300 / 1000, (q.2 - p.2) * 300 / 1000)

/-- Per-axis cap on one iteration of movement: the fixed temperature of
the simulation. -/
def clampDisp (x : Int) : Int := max (-150) (min 150 x)

/-- Modelled from the spec: the total displacement of vertex `v` at `p` in
one iteration — repulsion from every other vertex plus attraction along
every incident edge, capped per axis. -/
def displacement (k2 : Int) (es : List (String × String)) (ps : List (String × Int × Int))
    (v : String) (p : Int × Int) : Int × Int :=
  let rep := ps.foldl
    (fun acc q =>
      if q.1 == v then acc
      else
        let f := repulse k2 p q.2
        (acc.1 + f.1, acc.2 + f.2))
    ((0 : Int), (0 : Int))
  let tot := es.foldl
    (fun acc e =>
      let acc :=
        if e.1 == v then
          match lookupPos ps e.2 with
          | some q => let f := attract p q; (acc.1 + f.1, acc.2 + f.2)
          | none => acc
        else acc
      if e.2 == v then
        match lookupPos ps e.1 with
        | some q => let f := attract p q; (acc.1 + f.1, acc.2 + f.2)
        | none => acc
      else acc)
    rep
  (clampDisp tot.1, clampDisp tot.2)

/-- Modelled from the spec: one simulation step moves every vertex by its
displacement. -/
def layoutStep (k2 : Int) (es : List (String × String))
    (ps : List (String × Int × Int)) : List (String × Int × Int) :=
  ps.map fun q =>
    let d := displacement k2 es ps q.1 q.2
    (q.1, q.2.1 + d.1, q.2.2 + d.2)

/-- Modelled from the spec: iterate the simulation step a fixed number of
times ("iterated to convergence or a fixed iteration budget"). -/
def layoutIterate (k2 : Int) (es : List (String × String)) :
    Nat → List (String × Int × Int) → List (String × Int × Int)
  | 0, ps => ps
  | n + 1, ps => layoutIterate k2 es n (layoutStep k2 es ps)

/-- Modelled from the spec: the 2D force-directed layout routine.  The
source delegates layout to the external call `nx.spring_layout(G, k=2,
iterations=50, seed=42)`, whose code is not part of this repository; the
spec fixes its contract — seeded pseudo-random initial placement, then a
fixed number of iterations of pairwise repulsion and edge attraction,
deterministic in the graph and the seed — which this routine implements
over fixed-point integer coordinates (scale 1000, so `k` scales to
`k * 1000`). -/
def spring_layout (vs : List String) (es : List (String × String))
    (k : Nat) (iterations : Nat) (seed : Nat) : List (String × Int × Int) :=
  layoutIterate ((k * 1000 : Nat) * (k * 1000 : Nat)) es iterations (initialPositions vs seed)

/-- What rendering the Visualization page can raise.  The code itself can
only raise a Python `KeyError`, from the `node_colors[node]` lookup in the
node draw loop; `modelIntegrityError` is the diagnostic the design
document prescribes for a dangling edge endpoint — no such class exists
anywhere in the source, and the constructor is here only so that the
prescription can be stated and compared against what the code does. -/
inductive RenderError where
  | keyError (key : String)
  | modelIntegrityError (msg : String)
deriving DecidableEq, Repr

/-- The node draw loop of the Visualization page:
`for node in G.nodes(): ... node_colors[node]`.  A vertex absent from
`node_colors` raises `KeyError` there. -/
def drawNodesLoop (colors : List (String × String)) :
    List String → Except RenderError (List (String × String))
  | [] => .ok []
  | n :: ns =>
    match dictFind colors n with
    | none => .error (.keyError n)
    | some c => (drawNodesLoop colors ns).map (fun rest => (n, c) :: rest)

/-- What a successful render of the Visualization page produces: the
computed layout, the (vertex, color) pairs drawn by the node loop, and the
edge labels drawn at the end. -/
structure RenderOutput where
  pos : List (String × Int × Int)
  drawnNodes : List (String × String)
  edge_labels : List ((String × String) × String)
deriving DecidableEq, Repr

/-- Rendering the Visualization page: build the graph and the color and
label dicts, compute `spring_layout(G, k=2, iterations=50, seed=42)`, then
run the node draw loop (edge drawing and edge-label drawing follow it and
cannot fail). -/
def renderVisualization (m : GraphModel) : Except RenderError RenderOutput :=
  let g := buildGraph m
  let colors := node_colors m
  let labels := edge_labels m
  let pos := spring_layout g.1 g.2 2 50 42
  match drawNodesLoop colors g.1 with
  | .error e => .error e
  | .ok drawn => .ok { pos := pos, drawnNodes := drawn, edge_labels := labels }

/-- A registry with a dangling edge source: `graph_model` plus one edge
whose `from` ("Ghost") matches no node type. -/
def badModel : GraphModel :=
  { nodes := graph_model.nodes
  , edges := graph_model.edges ++
      [{ «from» := "Ghost", «to» := "Order", relationship := "HAUNTS", properties := [] }] }

/-- The graph the Visualization page builds from the registry. -/
def registryGraph : List String × List (String × String) := buildGraph graph_model

/-- The layout the Visualization page computes for the registry graph. -/
def registryLayout : List (String × Int × Int) :=
  spring_layout registryGraph.1 registryGraph.2 2 50 42

/-- Auxiliary: a layout step on an empty position list yields the empty
list. -/
theorem layoutStep_nil (k2 : Int) (es : List (String × String)) :
    layoutStep k2 es [] = [] := rfl

/-- Auxiliary: iterating the layout step any number of times on the empty
position list yields the empty list. -/
theorem layoutIterate_nil (k2 : Int) (es : List (String × String)) (n : Nat) :
    layoutIterate k2 es n [] = [] := by
  induction n with
  | zero => rfl
  | succ n ih => simpa [layoutIterate, layoutStep] using ih

/-- Claim C1: a registry in which an EdgeType `from` field matches no
NodeType name does not make the Visualization render abort with the
prescribed ModelIntegrityError: the code silently adds the unknown
endpoint to the graph via `G.add_edge` and then aborts with an unrelated
`KeyError` raised by the `node_colors[node]` lookup of the node draw
loop.  Shown at the concrete registry `badModel`, whose extra edge has
`from = "Ghost"`. -/
theorem renderVisualization_dangling_from_keyError :
    renderVisualization badModel = .error (.keyError "Ghost") ∧
    ∀ msg, renderVisualization badModel ≠ .error (.modelIntegrityError msg) := by
  refine ⟨rfl, ?_⟩
  intro msg h
  have h2 : (Except.error (RenderError.keyError "Ghost") : Except RenderError RenderOutput)
      = .error (.modelIntegrityError msg) := h
  simp at h2

set_option maxRecDepth 100000 in
/-- Claim C2: the layout of the graph built from the registry assigns
exactly one coordinate to each NodeType name — its domain is exactly the
vertex set, which is exactly the duplicate-free list of node-type names —
and the assigned coordinates are pairwise distinct. -/
theorem registryLayout_domain_and_distinct :
    registryLayout.map Prod.fst = registryGraph.1 ∧
    registryGraph.1 = nodeNames ∧
    nodeNames.Nodup ∧
    (registryLayout.map Prod.snd).Nodup := by decide

/-- Claim C3: the layout is a deterministic function of the graph (vertex
list and directed arc list), the spring constant, the iteration budget
and the seed: two invocations on equal inputs return identical coordinate
mappings. -/
theorem spring_layout_deterministic (vs vsb : List String)
    (es esb : List (String × String)) (k kb it itb seed seedb : Nat)
    (hv : vs = vsb) (he : es = esb) (hk : k = kb) (hi : it = itb) (hs : seed = seedb) :
    spring_layout vs es k it seed = spring_layout vsb esb kb itb seedb := by
  rw [hv, he, hk, hi, hs]

/-- Witness for claim C3: determinism applied to the registry graph at the
fixed call parameters k=2, iterations=50, seed=42. -/
theorem spring_layout_deterministic_witness :
    spring_layout registryGraph.1 registryGraph.2 2 50 42
      = spring_layout registryGraph.1 registryGraph.2 2 50 42 :=
  spring_layout_deterministic _ _ _ _ _ _ _ _ _ _ rfl rfl rfl rfl rfl

/-- Claim C4: on the empty vertex set the layout returns the empty
mapping, for every edge list, spring constant, iteration budget and seed;
the function is total, so no error is raised. -/
theorem spring_layout_empty (es : List (String × String)) (k it seed : Nat) :
    spring_layout [] es k it seed = [] := by
  simpa [spring_layout, initialPositions] using layoutIterate_nil _ es it

set_option maxRecDepth 100000 in
/-- Claim C5: for every query example in the fixed list, serializing its
result table to CSV and parsing the text back yields exactly the column
names in order and the cell values modulo stringification. -/
theorem queries_csv_roundTrip :
    queries.all (fun q => csvRoundTrip q.result) = true := by decide

/-- Download check for the query at 0-based index `i`: the produced blob
is the CSV serialization of its fixed result table, the first line of the
blob is the comma-separated field names of the table, and the suggested
file name is exactly `query_<i+1>_result.csv`. -/
def downloadCheck (i : Nat) (q : QueryExample) : Bool :=
  (queriesPageDownload (queryOption i q)
      == some { data := q.result.to_csv
              , file_name := "query_" ++ toString (i + 1) ++ "_result.csv" })
  && (String.mk (q.result.to_csv.data.takeWhile (fun c => !(c == '\n')))
      == joinWith "," q.result.columns)

set_option maxRecDepth 100000 in
/-- Claim C6: for every query example at 1-based index i in the fixed
list, requesting download produces the CSV text blob of that fixed result
table, headed by the field names of the table, under the suggested file
name `query_<i>_result.csv`. -/
theorem queries_download_button :
    (queries.enum.all fun p => downloadCheck p.1 p.2) = true := by decide

/-- Claim C7: the registry holds exactly the 5 named node types and the 6
relationship labels, and the Overview metrics report "5" and "6", equal
to the stringified registry counts. -/
theorem registry_counts_and_overview :
    graph_model.nodes.map NodeType.type
        = ["Customer", "Restaurant", "Dish", "DeliveryPerson", "Order"] ∧
    graph_model.edges.map EdgeType.relationship
        = ["PLACES", "FROM", "CONTAINS", "DELIVERS", "SERVES", "REVIEWS"] ∧
    graph_model.nodes.length = 5 ∧
    graph_model.edges.length = 6 ∧
    overviewNodeTypesMetric = toString graph_model.nodes.length ∧
    overviewEdgeTypesMetric = toString graph_model.edges.length := by decide

/-- Claim C8: every edge of the registry references existing node-type
names at both its source (`from`) and its target (`to`). -/
theorem edges_referential_integrity :
    graph_model.edges.all
      (fun e => decide (e.«from» ∈ nodeNames) && decide (e.«to» ∈ nodeNames)) = true := by
  decide

/-- Validity of one select-box option: parsing the text before the first
dot recovers a nonnegative index in range of the query list, and the
option is exactly the option text of the query at that index, so the
title shown in the option is the title of the query it selects. -/
def optionCheck (opt : String) : Bool :=
  match parsedQueryIdx opt with
  | none => false
  | some idx =>
    decide (0 ≤ idx) &&
      match queries.get? idx.toNat with
      | none => false
      | some q => opt == queryOption idx.toNat q

set_option maxRecDepth 100000 in
/-- Claim C9: every option string offered by the Queries-page selector
parses back to a valid 0-based index into the query list, and selects the
query whose title appears in that option; no out-of-range index is
reachable through the widget. -/
theorem queryOptions_safe : queryOptions.all optionCheck = true := by decide

/-- Claim C10: the six (from, to) ordered pairs of the registry edges are
pairwise distinct, so the edge-label dict of the Visualization page keeps
exactly one entry per edge and retains all six relationship labels. -/
theorem edgePairs_distinct_labels_retained :
    (graph_model.edges.map (fun e => (e.«from», e.«to»))).Nodup ∧
    (edge_labels graph_model).length = graph_model.edges.length ∧
    (edge_labels graph_model).map Prod.snd
      = graph_model.edges.map EdgeType.relationship := by decide

end FoodDeliveryDemo
